import Mathlib

/-!
Shallow embedding of the Sony IMX290 CMOS sensor driver
(drivers/media/i2c/imx290.c): the condition-mask evaluator
(imx290_settings_match), the conditional register-sequence applier
(imx290_set_register_array), the buffered-write helper, the control
updates (gain, exposure, flip, test pattern, conversion-gain switch),
frame-interval selection, pixel-rate derivation and format selection.

The register bus is modelled by an oracle `Bus : Nat -> Int` giving the
return code of the i-th register write issued during a run (0 = success,
negative = errno, as regmap_write reports).  A `BusState` records the
writes issued so far, in order, together with the index of the next
write; every attempted write is logged, whether or not it succeeds.
Sleeps (usleep_range/msleep) have no observable effect in this model and
are omitted.  Unsigned 32-bit arithmetic is modelled on `Nat` with an
explicit modulus `U32` where the C code can wrap.
-/

set_option maxRecDepth 4096

namespace Imx290

/-! ## Condition bits (enum at imx290.c:39) -/

def COND_25_FPS : Nat := 1
def COND_30_FPS : Nat := 2
def COND_50_FPS : Nat := 4
def COND_60_FPS : Nat := 8
def COND_25_30_FPS : Nat := COND_25_FPS ||| COND_30_FPS
def COND_50_60_FPS : Nat := COND_50_FPS ||| COND_60_FPS
def COND_FPS_msk : Nat := COND_25_FPS ||| COND_30_FPS ||| COND_50_FPS ||| COND_60_FPS
def COND_2_LANES : Nat := 16
def COND_4_LANES : Nat := 32
def COND_LANES_msk : Nat := COND_2_LANES ||| COND_4_LANES
def COND_INCK_37 : Nat := 64
def COND_INCK_74 : Nat := 128
def COND_INCK_msk : Nat := COND_INCK_37 ||| COND_INCK_74

/-- enum imx290_fps (imx290.c:58). -/
inductive Fps
  | fps25
  | fps30
  | fps50
  | fps60
deriving DecidableEq, Repr

/-- enum imx290_inck (imx290.c:65). -/
inductive Inck
  | inck37
  | inck74
deriving DecidableEq, Repr

/-! ## Data model -/

/-- struct imx290_regval: one conditional register write.  A missing
`.cond` initializer in the C tables means 0 (always applies). -/
structure Regval where
  reg : Nat
  val : Nat
  cond : Nat
deriving DecidableEq, Repr

/-- struct imx290_mode, the register-table pointer dropped (the mode
tables' literal contents are not referenced by any modelled operation). -/
structure Mode where
  width : Nat
  height : Nat
  link_freq_index : Nat
deriving DecidableEq, Repr

/-- struct v4l2_mbus_framefmt, restricted to the fields the driver
touches. -/
structure Fmt where
  width : Nat
  height : Nat
  code : Nat
  field : Nat
  colorspace : Nat
deriving DecidableEq, Repr

/-- The mutable per-device state of struct imx290 that the modelled
operations read or write (bus handles, v4l2 plumbing and power plumbing
are external collaborators).  `link_freq_ctrl` / `pixel_rate_ctrl` hold
the values pushed into the two read-only controls. -/
structure Imx290State where
  nlanes : Nat
  bpp : Nat
  fps : Fps
  inck : Inck
  reg_3007 : Nat
  vmax : Nat
  current_mode : Option Mode
  current_format : Fmt
  link_freq_ctrl : Nat
  pixel_rate_ctrl : Nat
deriving DecidableEq, Repr

/-! ## Bus model -/

/-- Result of the i-th write issued during a run: 0 on success, a
negative errno on failure (regmap_write's contract). -/
abbrev Bus := Nat → Int

/-- A single bus write, as observed on the wire. -/
structure Write where
  addr : Nat
  val : Nat
deriving DecidableEq, Repr

/-- Writes issued so far (in order) and the index of the next write. -/
structure BusState where
  log : List Write
  idx : Nat
deriving DecidableEq, Repr

def BusState.start : BusState := ⟨[], 0⟩

/-- imx290_write_reg (imx290.c:648): issue one write, return regmap's
code.  The attempt is logged even if it fails. -/
def imx290_write_reg (bus : Bus) (addr val : Nat) (s : BusState) :
    Int × BusState :=
  (bus s.idx, ⟨s.log ++ [⟨addr, val⟩], s.idx + 1⟩)

/-! ## Condition evaluator (imx290_settings_match, imx290.c:661) -/

def imx290_settings_match (imx290 : Imx290State) (cond : Nat) : Bool :=
  let reject := false
  let reject :=
    if cond &&& COND_FPS_msk ≠ 0 then
      reject || (match imx290.fps with
        | .fps25 => cond &&& COND_25_FPS = 0
        | .fps30 => cond &&& COND_30_FPS = 0
        | .fps50 => cond &&& COND_50_FPS = 0
        | .fps60 => cond &&& COND_60_FPS = 0)
    else reject
  let reject :=
    if cond &&& COND_LANES_msk ≠ 0 then
      reject || (if imx290.nlanes = 2 then cond &&& COND_2_LANES = 0
                 else if imx290.nlanes = 4 then cond &&& COND_4_LANES = 0
                 else true)
    else reject
  let reject :=
    if cond &&& COND_INCK_msk ≠ 0 then
      reject || (match imx290.inck with
        | .inck37 => cond &&& COND_INCK_74 = 0
        | .inck74 => cond &&& COND_INCK_37 = 0)
    else reject
  !reject

/-! ## Sequence applier (imx290_set_register_array, imx290.c:716) -/

def imx290_set_register_array (bus : Bus) (imx290 : Imx290State) :
    List Regval → BusState → Int × BusState
  | [], s => (0, s)
  | e :: rest, s =>
      if imx290_settings_match imx290 e.cond then
        let r := imx290_write_reg bus e.reg e.val s
        if r.1 < 0 then r
        else imx290_set_register_array bus imx290 rest r.2
      else
        imx290_set_register_array bus imx290 rest s

/-- The writes a table produces under a configuration: the matching
entries, in table order. -/
def matchedWrites (imx290 : Imx290State) (settings : List Regval) :
    List Write :=
  (settings.filter (fun e => imx290_settings_match imx290 e.cond)).map
    (fun e => ⟨e.reg, e.val⟩)

lemma matchedWrites_nil (imx290 : Imx290State) :
    matchedWrites imx290 [] = [] := rfl

lemma matchedWrites_cons (imx290 : Imx290State) (e : Regval)
    (rest : List Regval) :
    matchedWrites imx290 (e :: rest) =
      if imx290_settings_match imx290 e.cond
      then Write.mk e.reg e.val :: matchedWrites imx290 rest
      else matchedWrites imx290 rest := by
  by_cases h : imx290_settings_match imx290 e.cond <;>
    simp [matchedWrites, List.filter_cons, h]

/-- Success path of the sequence applier: if the bus accepts every write
the table needs, exactly the matching entries are written, in order. -/
lemma set_register_array_ok (bus : Bus) (imx290 : Imx290State)
    (settings : List Regval) (s : BusState)
    (h : ∀ j, j < (matchedWrites imx290 settings).length →
          bus (s.idx + j) = 0) :
    imx290_set_register_array bus imx290 settings s =
      (0, ⟨s.log ++ matchedWrites imx290 settings,
           s.idx + (matchedWrites imx290 settings).length⟩) := by
  induction settings generalizing s with
  | nil => simp [imx290_set_register_array, matchedWrites]
  | cons e rest ih =>
      by_cases hm : imx290_settings_match imx290 e.cond
      · have hlen : (matchedWrites imx290 (e :: rest)).length =
            (matchedWrites imx290 rest).length + 1 := by
          simp [matchedWrites_cons, hm]
        have h0 : bus s.idx = 0 := by
          have := h 0 (by omega)
          simpa using this
        have ih' := ih ⟨s.log ++ [⟨e.reg, e.val⟩], s.idx + 1⟩
          (fun j hj => by
            have := h (j + 1) (by omega)
            simpa [Nat.add_assoc, Nat.add_comm 1 j] using this)
        simp [imx290_set_register_array, hm, imx290_write_reg, h0, ih',
              matchedWrites_cons]
        omega
      · have ih' := ih s (fun j hj => h j (by
          simpa [matchedWrites_cons, hm] using hj))
        simpa [imx290_set_register_array, hm, matchedWrites_cons] using ih'

/-- Failure path of the sequence applier: if the k-th needed write is
the first one the bus rejects, the applier returns that error having
issued exactly the first k+1 matching writes (the failing one included,
nothing after it, nothing rolled back). -/
lemma set_register_array_fail (bus : Bus) (imx290 : Imx290State)
    (settings : List Regval) (s : BusState) (k : Nat)
    (hk : k < (matchedWrites imx290 settings).length)
    (h0 : ∀ j, j < k → bus (s.idx + j) = 0)
    (hf : bus (s.idx + k) < 0) :
    imx290_set_register_array bus imx290 settings s =
      (bus (s.idx + k),
       ⟨s.log ++ (matchedWrites imx290 settings).take (k + 1),
        s.idx + k + 1⟩) := by
  induction settings generalizing s k with
  | nil => simp [matchedWrites] at hk
  | cons e rest ih =>
      by_cases hm : imx290_settings_match imx290 e.cond
      · cases k with
        | zero =>
            have hf0 : bus s.idx < 0 := by simpa using hf
            simp [imx290_set_register_array, hm, imx290_write_reg, hf0,
                  matchedWrites_cons]
        | succ k' =>
            have hb0 : bus s.idx = 0 := by
              have := h0 0 (by omega)
              simpa using this
            have hk' : k' < (matchedWrites imx290 rest).length := by
              have : (matchedWrites imx290 (e :: rest)).length =
                  (matchedWrites imx290 rest).length + 1 := by
                simp [matchedWrites_cons, hm]
              omega
            have heq : s.idx + 1 + k' = s.idx + (k' + 1) := by omega
            have ih' := ih ⟨s.log ++ [⟨e.reg, e.val⟩], s.idx + 1⟩ k' hk'
              (fun j hj => by
                have := h0 (j + 1) (by omega)
                simpa [Nat.add_assoc, Nat.add_comm 1 j] using this)
              (by show bus (s.idx + 1 + k') < 0; rw [heq]; exact hf)
            rw [show s.idx + (k' + 1) = s.idx + 1 + k' from by omega]
            simp [imx290_set_register_array, hm, imx290_write_reg, hb0,
                  ih', matchedWrites_cons, List.take_succ_cons]
      · have hk' : k < (matchedWrites imx290 rest).length := by
          simpa [matchedWrites_cons, hm] using hk
        have ih' := ih s k hk' h0 hf
        simpa [imx290_set_register_array, hm, matchedWrites_cons] using ih'

/-! ## Claim C1 -/

/-- A 2-lane, 30 fps, 37.125 MHz configuration (the very one probe
establishes for xclk_freq = 37125000 on a 2-lane wiring). -/
def dev37 : Imx290State :=
  ⟨2, 10, .fps30, .inck37, 0, 0, none, ⟨1920, 1080, 0x300f, 1, 8⟩, 0, 0⟩

/-- Claim C1: the input-clock arm of imx290_settings_match is inverted.
Under a configuration whose clock class is 37.125 MHz, a mask
constraining only the input-clock axis to COND_INCK_37 is rejected,
while the mask COND_INCK_74 is accepted — the opposite of the specified
rule (the config's clock-class bit must be among the masked bits), and
the opposite of what the register tables need (their COND_INCK_37
entries carry the 37.125 MHz PLL values). -/
theorem settings_match_inck_bug :
    imx290_settings_match dev37 COND_INCK_37 = false ∧
    imx290_settings_match dev37 COND_INCK_74 = true := by
  constructor <;> rfl

/-! ## Claim C2 -/

/-- Claim C2: for every runtime configuration, register table and bus
behaviour, imx290_set_register_array issues writes for exactly the
matching entries in table order: if the bus accepts them all it returns
0 having issued exactly `matchedWrites`; if the (k+1)-st matching write
is the first to fail, it returns that error immediately, having issued
exactly the first k+1 matching writes — nothing after the failure and no
rollback of the writes before it. -/
theorem set_register_array_applies_matching_subset
    (bus : Bus) (imx290 : Imx290State) (settings : List Regval) :
    ((∀ j, j < (matchedWrites imx290 settings).length → bus j = 0) →
      imx290_set_register_array bus imx290 settings BusState.start =
        (0, ⟨matchedWrites imx290 settings,
             (matchedWrites imx290 settings).length⟩)) ∧
    (∀ k, k < (matchedWrites imx290 settings).length →
      (∀ j, j < k → bus j = 0) → bus k < 0 →
      imx290_set_register_array bus imx290 settings BusState.start =
        (bus k, ⟨(matchedWrites imx290 settings).take (k + 1), k + 1⟩)) := by
  constructor
  · intro h
    have := set_register_array_ok bus imx290 settings BusState.start
      (fun j hj => by simpa [BusState.start] using h j hj)
    simpa [BusState.start] using this
  · intro k hk h0 hf
    have := set_register_array_fail bus imx290 settings BusState.start k hk
      (fun j hj => by simpa [BusState.start] using h0 j hj)
      (by simpa [BusState.start] using hf)
    simpa [BusState.start] using this

/-- A bus that accepts every write. -/
def busOk : Bus := fun _ => 0

/-- A bus that rejects the second write of a run with -5 (-EIO). -/
def busFail1 : Bus := fun i => if i = 1 then -5 else 0

/-- A small table: two unconditional entries, one 50/60 fps entry (to be
skipped at 30 fps), one more unconditional entry. -/
def tblW : List Regval :=
  [⟨0x3000, 0x01, 0⟩, ⟨0x3002, 0x01, 0⟩, ⟨0x3009, 0x01, COND_50_60_FPS⟩,
   ⟨0x3040, 0x00, 0⟩]

theorem set_register_array_applies_matching_subset_witness :
    imx290_set_register_array busOk dev37 tblW BusState.start =
      (0, ⟨[⟨0x3000, 0x01⟩, ⟨0x3002, 0x01⟩, ⟨0x3040, 0x00⟩], 3⟩) ∧
    imx290_set_register_array busFail1 dev37 tblW BusState.start =
      (-5, ⟨[⟨0x3000, 0x01⟩, ⟨0x3002, 0x01⟩], 2⟩) := by
  constructor
  · have h := (set_register_array_applies_matching_subset busOk dev37
      tblW).1 (by decide)
    exact h.trans (by decide)
  · have h := (set_register_array_applies_matching_subset busFail1 dev37
      tblW).2 1 (by decide) (by decide) (by decide)
    exact h.trans (by decide)

/-! ## Inversion of the sequence applier

With a well-behaved bus (codes are 0 or negative, as regmap guarantees),
a run of the applier keeps `idx = log.length`; a zero return means every
issued write succeeded, and a negative return is the code of the last
issued write, every earlier one having succeeded. -/

lemma set_register_array_inv (bus : Bus) (imx290 : Imx290State)
    (hbus : ∀ i, bus i ≤ 0) :
    ∀ (settings : List Regval) (s : BusState), s.idx = s.log.length →
      ∀ ret s', imx290_set_register_array bus imx290 settings s = (ret, s') →
        s'.idx = s'.log.length ∧ s.idx ≤ s'.idx ∧ ret ≤ 0 ∧
        (ret = 0 → ∀ j, s.idx ≤ j → j < s'.idx → bus j = 0) ∧
        (ret < 0 → s.idx < s'.idx ∧ ret = bus (s'.idx - 1) ∧
          ∀ j, s.idx ≤ j → j < s'.idx - 1 → bus j = 0) := by
  intro settings
  induction settings with
  | nil =>
      intro s hwf ret s' h
      simp [imx290_set_register_array] at h
      obtain ⟨rfl, rfl⟩ := h
      refine ⟨hwf, le_rfl, le_rfl, ?_, ?_⟩
      · intro _ j h1 h2; omega
      · intro h0; omega
  | cons e rest ih =>
      intro s hwf ret s' h
      by_cases hm : imx290_settings_match imx290 e.cond
      · by_cases hneg : bus s.idx < 0
        · simp [imx290_set_register_array, hm, imx290_write_reg, hneg] at h
          obtain ⟨rfl, rfl⟩ := h
          refine ⟨by simp [hwf], by simp, hbus s.idx, ?_, ?_⟩
          · intro h0; exfalso; omega
          · intro _
            refine ⟨by simp, by simp, ?_⟩
            intro j h1 h2; simp at h2; omega
        · have hb0 : bus s.idx = 0 := by have := hbus s.idx; omega
          have h' : imx290_set_register_array bus imx290 rest
              ⟨s.log ++ [⟨e.reg, e.val⟩], s.idx + 1⟩ = (ret, s') := by
            simpa [imx290_set_register_array, hm, imx290_write_reg,
                   hneg] using h
          obtain ⟨i1, i2, i3, i4, i5⟩ :=
            ih ⟨s.log ++ [⟨e.reg, e.val⟩], s.idx + 1⟩ (by simp [hwf]) ret s' h'
          simp at i2
          refine ⟨i1, by omega, i3, ?_, ?_⟩
          · intro h0 j h1 h2
            rcases Nat.eq_or_lt_of_le h1 with rfl | hgt
            · exact hb0
            · exact i4 h0 j (by simpa using hgt) h2
          · intro hlt
            obtain ⟨j1, j2, j3⟩ := i5 hlt
            simp at j1
            refine ⟨by omega, j2, ?_⟩
            intro j h1 h2
            rcases Nat.eq_or_lt_of_le h1 with rfl | hgt
            · exact hb0
            · exact j3 j (by simpa using hgt) h2
      · have h' : imx290_set_register_array bus imx290 rest s = (ret, s') := by
          simpa [imx290_set_register_array, hm] using h
        exact ih s hwf ret s' h'

/-- From a fresh bus state: a zero return means every issued write
succeeded, and a first-failing write's code is what the applier
returns. -/
lemma sra_error_propagation (bus : Bus) (imx290 : Imx290State)
    (l : List Regval) (hbus : ∀ i, bus i ≤ 0) :
    ∀ ret s', imx290_set_register_array bus imx290 l BusState.start = (ret, s') →
      (ret = 0 → ∀ j, j < s'.log.length → bus j = 0) ∧
      (∀ k, k < s'.log.length → (∀ j, j < k → bus j = 0) → bus k < 0 →
        ret = bus k) := by
  intro ret s' h
  obtain ⟨i1, i2, i3, i4, i5⟩ :=
    set_register_array_inv bus imx290 hbus l BusState.start rfl ret s' h
  constructor
  · intro h0 j hj
    exact i4 h0 j (Nat.zero_le j) (by omega)
  · intro k hk hprev hneg
    rcases i3.lt_or_eq with hlt | heq
    · obtain ⟨j1, j2, j3⟩ := i5 hlt
      by_cases hke : k = s'.idx - 1
      · rw [hke]; exact j2
      · have hk2 : k < s'.idx - 1 := by omega
        have := j3 k (Nat.zero_le k) hk2
        omega
    · have := i4 heq k (Nat.zero_le k) (by omega)
      omega

/-! ## Register constants (imx290.c:25) -/

def IMX290_STANDBY : Nat := 0x3000
def IMX290_REGHOLD : Nat := 0x3001
def IMX290_XMSTA : Nat := 0x3002
def IMX290_BLKLEVEL_LOW : Nat := 0x300a
def IMX290_BLKLEVEL_HIGH : Nat := 0x300b
def IMX290_GAIN : Nat := 0x3014
def IMX290_PGCTRL : Nat := 0x308c

/-! ## Buffered multi-byte write helper (imx290.c:738) -/

/-- Inner loop of imx290_write_buffered_reg: write the next `n` bytes of
`value` little-endian at consecutive addresses, aborting on the first
nonzero return code. -/
def imx290_write_buffered_aux (bus : Bus) :
    Nat → Nat → Nat → BusState → Int × BusState
  | _, _, 0, s => (0, s)
  | addr, value, n + 1, s =>
      let r := imx290_write_reg bus addr (value % 256) s
      if r.1 ≠ 0 then r
      else imx290_write_buffered_aux bus (addr + 1) (value / 256) n r.2

/-- imx290_write_buffered_reg: hold, `nr_regs` data bytes little-endian,
release; aborts on the first nonzero return code (on failure HOLD may
stay asserted — no cleanup). -/
def imx290_write_buffered_reg (bus : Bus) (address_low nr_regs value : Nat)
    (s : BusState) : Int × BusState :=
  let r := imx290_write_reg bus IMX290_REGHOLD 0x01 s
  if r.1 ≠ 0 then r
  else
    let r2 := imx290_write_buffered_aux bus address_low value nr_regs r.2
    if r2.1 ≠ 0 then r2
    else imx290_write_reg bus IMX290_REGHOLD 0x00 r2.2

/-- imx290_set_gain (imx290.c:768): one buffered byte to the gain
register. -/
def imx290_set_gain (bus : Bus) (value : Nat) (s : BusState) :
    Int × BusState :=
  imx290_write_buffered_reg bus IMX290_GAIN 1 value s

/-! ## Exposure (imx290_set_exposure, imx290.c:809) -/

def U32 : Nat := 4294967296

/-- The raw line-count computed by imx290_set_exposure from `vmax`, the
control maximum and the control value, with the unsigned 32-bit
arithmetic of the C code made explicit (`val *= vmax - 2; val /= max;
if (val == 0) val = 1; val = vmax - 2 - val`). -/
def exposureRaw (vmax cmax c : Nat) : Nat :=
  let m := (vmax + U32 - 2) % U32
  let v1 := (c * m) % U32
  let v2 := v1 / cmax
  let v3 := if v2 = 0 then 1 else v2
  (m + U32 - v3) % U32

/-- The inline register block of imx290_set_exposure: low, mid and
high-bit bytes of the raw value inside a hold/release bracket. -/
def exposureRegs (val : Nat) : List Regval :=
  [⟨0x3001, 0x01, 0⟩,
   ⟨0x3020, val % 256, 0⟩,
   ⟨0x3021, val / 256 % 256, 0⟩,
   ⟨0x3022, val / 65536 % 2, 0⟩,
   ⟨0x3001, 0x00, 0⟩]

/-- enum of the control ids imx290_set_ctrl dispatches on (`other`
covers any id outside the switch, returning -EINVAL). -/
inductive CtrlId
  | gain
  | test_pattern
  | exposure
  | vflip
  | hflip
  | cg_switch
  | link_freq
  | pixel_rate
  | other
deriving DecidableEq, Repr

/-- A v4l2 control as seen by s_ctrl: id, current value, range
maximum. -/
structure Ctrl where
  id : CtrlId
  val : Nat
  maximum : Nat
deriving DecidableEq, Repr

def imx290_set_exposure (bus : Bus) (imx290 : Imx290State) (ctrl : Ctrl)
    (s : BusState) : Int × BusState :=
  if imx290.vmax = 0 then (0, s)
  else
    imx290_set_register_array bus imx290
      (exposureRegs (exposureRaw imx290.vmax ctrl.maximum ctrl.val)) s

/-! ## Flip (imx290_set_flip, imx290.c:843) -/

/-- The read-modify-write of the cached shared byte: bit 1 for H-flip,
bit 0 for V-flip (`r3007 |= msk` / `r3007 &= ~msk` on a u8). -/
def flipNewByte (imx290 : Imx290State) (ctrl : Ctrl) : Nat :=
  let msk : Nat := if ctrl.id = CtrlId.hflip then 2 else 1
  if ctrl.val ≠ 0 then imx290.reg_3007 ||| msk
  else imx290.reg_3007 &&& (255 ^^^ msk)

/-- The inline register block of imx290_set_flip: the new byte inside a
hold/release bracket. -/
def flipRegs (r3007 : Nat) : List Regval :=
  [⟨0x3001, 0x01, 0⟩, ⟨0x3007, r3007, 0⟩, ⟨0x3001, 0x00, 0⟩]

/-- imx290_set_flip: compute the new byte from the cache, write it
bracketed, and commit it to the cache only if the write sequence
succeeded (the lock around it is the caller-side serialization and has
no observable effect here). -/
def imx290_set_flip (bus : Bus) (imx290 : Imx290State) (ctrl : Ctrl)
    (s : BusState) : Int × Imx290State × BusState :=
  let r3007 := flipNewByte imx290 ctrl
  let rc := imx290_set_register_array bus imx290 (flipRegs r3007) s
  if rc.1 < 0 then (rc.1, imx290, rc.2)
  else (0, { imx290 with reg_3007 := r3007 }, rc.2)

/-! ## Conversion-gain switch: inline table of imx290_set_ctrl
(imx290.c:926) -/

def cgRegs (v : Nat) : List Regval :=
  [⟨0x3001, 0x01, 0⟩,
   ⟨0x3009, 0x01 ||| v, COND_50_60_FPS⟩,
   ⟨0x3009, 0x02 ||| v, COND_25_30_FPS⟩,
   ⟨0x3001, 0x00, 0⟩]

/-! ## Control dispatch (imx290_set_ctrl, imx290.c:881) -/

/-- imx290_set_ctrl.  `powered` models pm_runtime_get_if_in_use: when
the device is not powered the call returns 0 up front without touching
the bus.  The test-pattern branch issues its writes without checking
their return codes, exactly as the C does. -/
def imx290_set_ctrl (bus : Bus) (imx290 : Imx290State) (ctrl : Ctrl)
    (powered : Bool) (s : BusState) : Int × Imx290State × BusState :=
  if !powered then (0, imx290, s)
  else
    match ctrl.id with
    | .gain =>
        let r := imx290_set_gain bus ctrl.val s
        (r.1, imx290, r.2)
    | .test_pattern =>
        if ctrl.val ≠ 0 then
          let r1 := imx290_write_reg bus IMX290_BLKLEVEL_LOW 0x00 s
          let r2 := imx290_write_reg bus IMX290_BLKLEVEL_HIGH 0x00 r1.2
          let r3 := imx290_write_reg bus IMX290_PGCTRL
            ((1 ||| 2 ||| (ctrl.val <<< 4)) % 256) r2.2
          (0, imx290, r3.2)
        else
          let r1 := imx290_write_reg bus IMX290_PGCTRL 0x00 s
          let r2 := imx290_write_reg bus IMX290_BLKLEVEL_LOW
            (if imx290.bpp = 10 then 0x3c else 0xf0) r1.2
          let r3 := imx290_write_reg bus IMX290_BLKLEVEL_HIGH 0x00 r2.2
          (0, imx290, r3.2)
    | .exposure =>
        let r := imx290_set_exposure bus imx290 ctrl s
        (r.1, imx290, r.2)
    | .vflip => imx290_set_flip bus imx290 ctrl s
    | .hflip => imx290_set_flip bus imx290 ctrl s
    | .cg_switch =>
        let v : Nat := if ctrl.val = 0 then 0 else 16
        let r := imx290_set_register_array bus imx290 (cgRegs v) s
        (r.1, imx290, r.2)
    | .link_freq => (0, imx290, s)
    | .pixel_rate => (0, imx290, s)
    | .other => (-22, imx290, s)

/-- Error propagation through a one-byte buffered write (the shape
imx290_set_gain uses): zero return means all three writes succeeded, and
a first-failing write's code is returned. -/
lemma write_buffered_one_error_propagation (bus : Bus) (addr value : Nat)
    (hbus : ∀ i, bus i ≤ 0) :
    ∀ ret s', imx290_write_buffered_reg bus addr 1 value BusState.start =
        (ret, s') →
      (ret = 0 → ∀ j, j < s'.log.length → bus j = 0) ∧
      (∀ k, k < s'.log.length → (∀ j, j < k → bus j = 0) → bus k < 0 →
        ret = bus k) := by
  intro ret s' h
  by_cases h0 : bus 0 = 0
  · by_cases h1 : bus 1 = 0
    · simp [imx290_write_buffered_reg, imx290_write_buffered_aux,
            imx290_write_reg, BusState.start, h0, h1] at h
      obtain ⟨rfl, rfl⟩ := h
      constructor
      · intro hz j hj
        simp at hj
        interval_cases j
        · exact h0
        · exact h1
        · exact hz
      · intro k hk hprev hneg
        simp at hk
        interval_cases k
        · omega
        · omega
        · rfl
    · simp [imx290_write_buffered_reg, imx290_write_buffered_aux,
            imx290_write_reg, BusState.start, h0, h1] at h
      obtain ⟨rfl, rfl⟩ := h
      constructor
      · intro hz; exact absurd hz h1
      · intro k hk hprev hneg
        simp at hk
        interval_cases k
        · omega
        · rfl
  · simp [imx290_write_buffered_reg, imx290_write_buffered_aux,
          imx290_write_reg, BusState.start, h0] at h
    obtain ⟨rfl, rfl⟩ := h
    constructor
    · intro hz; exact absurd hz h0
    · intro k hk hprev hneg
      simp at hk
      have hk0 : k = 0 := by omega
      subst hk0
      rfl

/-! ## Claim C9 -/

/-- Claim C9: for every control, a set-control request issued while the
device is powered off is accepted: it returns 0, leaves the device state
untouched and issues no bus write. -/
theorem set_ctrl_powered_off_noop (bus : Bus) (imx290 : Imx290State)
    (ctrl : Ctrl) (s : BusState) :
    imx290_set_ctrl bus imx290 ctrl false s = (0, imx290, s) := rfl

/-! ## Claim C3 -/

def busAllFail : Bus := fun _ => -5

/-- Claim C3 counterexample: a powered test-pattern update whose bus
writes all fail with -5 still issues its three writes and returns 0 —
the branch ignores the write return codes, so a control update in which
bus writes failed reports success. -/
theorem set_ctrl_test_pattern_swallows_error :
    (imx290_set_ctrl busAllFail dev37 ⟨CtrlId.test_pattern, 1, 7⟩ true
       BusState.start).1 = 0 ∧
    (imx290_set_ctrl busAllFail dev37 ⟨CtrlId.test_pattern, 1, 7⟩ true
       BusState.start).2.2.log.length = 3 ∧
    busAllFail 0 = -5 := by
  refine ⟨rfl, rfl, rfl⟩

/-- Claim C3 as amended: for the gain, exposure, flip and
conversion-gain branches of imx290_set_ctrl (all but test-pattern,
which ignores its write return codes), a powered update returns 0 only
if every issued bus write succeeded, and when the k-th issued write is
the first to fail its code is exactly what the caller gets back. -/
theorem set_ctrl_bus_error_propagation (bus : Bus) (imx290 : Imx290State)
    (ctrl : Ctrl)
    (hid : ctrl.id = CtrlId.gain ∨ ctrl.id = CtrlId.exposure ∨
           ctrl.id = CtrlId.vflip ∨ ctrl.id = CtrlId.hflip ∨
           ctrl.id = CtrlId.cg_switch)
    (hbus : ∀ i, bus i ≤ 0) :
    ∀ ret dev' s',
      imx290_set_ctrl bus imx290 ctrl true BusState.start = (ret, dev', s') →
      (ret = 0 → ∀ j, j < s'.log.length → bus j = 0) ∧
      (∀ k, k < s'.log.length → (∀ j, j < k → bus j = 0) → bus k < 0 →
        ret = bus k) := by
  intro ret dev' s' h
  rcases hid with hg | he | hv | hh | hc
  · -- gain
    rcases hrun : imx290_set_gain bus ctrl.val BusState.start with ⟨gret, gs⟩
    simp [imx290_set_ctrl, hg, hrun] at h
    obtain ⟨rfl, rfl, rfl⟩ := h
    exact write_buffered_one_error_propagation bus IMX290_GAIN ctrl.val hbus
      gret gs (by simpa [imx290_set_gain] using hrun)
  · -- exposure
    by_cases hvm : imx290.vmax = 0
    · simp [imx290_set_ctrl, he, imx290_set_exposure, hvm] at h
      obtain ⟨rfl, rfl, rfl⟩ := h
      constructor
      · intro _ j hj; simp [BusState.start] at hj
      · intro k hk; simp [BusState.start] at hk
    · rcases hrun : imx290_set_register_array bus imx290
        (exposureRegs (exposureRaw imx290.vmax ctrl.maximum ctrl.val))
        BusState.start with ⟨qret, qs⟩
      simp [imx290_set_ctrl, he, imx290_set_exposure, hvm, hrun] at h
      obtain ⟨rfl, rfl, rfl⟩ := h
      exact sra_error_propagation bus imx290 _ hbus qret qs hrun
  · -- vflip
    rcases hrun : imx290_set_register_array bus imx290
        (flipRegs (flipNewByte imx290 ctrl)) BusState.start with ⟨qret, qs⟩
    obtain ⟨_, _, hq0, _, _⟩ := set_register_array_inv bus imx290 hbus
      (flipRegs (flipNewByte imx290 ctrl)) BusState.start rfl qret qs hrun
    have hp := sra_error_propagation bus imx290
      (flipRegs (flipNewByte imx290 ctrl)) hbus qret qs hrun
    by_cases hneg : qret < 0
    · simp [imx290_set_ctrl, hv, imx290_set_flip, hrun, hneg] at h
      obtain ⟨rfl, rfl, rfl⟩ := h
      exact hp
    · have hz : qret = 0 := by omega
      simp [imx290_set_ctrl, hv, imx290_set_flip, hrun, hneg] at h
      obtain ⟨rfl, rfl, rfl⟩ := h
      rw [hz] at hp
      exact hp
  · -- hflip
    rcases hrun : imx290_set_register_array bus imx290
        (flipRegs (flipNewByte imx290 ctrl)) BusState.start with ⟨qret, qs⟩
    obtain ⟨_, _, hq0, _, _⟩ := set_register_array_inv bus imx290 hbus
      (flipRegs (flipNewByte imx290 ctrl)) BusState.start rfl qret qs hrun
    have hp := sra_error_propagation bus imx290
      (flipRegs (flipNewByte imx290 ctrl)) hbus qret qs hrun
    by_cases hneg : qret < 0
    · simp [imx290_set_ctrl, hh, imx290_set_flip, hrun, hneg] at h
      obtain ⟨rfl, rfl, rfl⟩ := h
      exact hp
    · have hz : qret = 0 := by omega
      simp [imx290_set_ctrl, hh, imx290_set_flip, hrun, hneg] at h
      obtain ⟨rfl, rfl, rfl⟩ := h
      rw [hz] at hp
      exact hp
  · -- conversion-gain switch
    rcases hrun : imx290_set_register_array bus imx290
        (cgRegs (if ctrl.val = 0 then 0 else 16)) BusState.start
      with ⟨qret, qs⟩
    simp [imx290_set_ctrl, hc, hrun] at h
    obtain ⟨rfl, rfl, rfl⟩ := h
    exact sra_error_propagation bus imx290 _ hbus qret qs hrun

theorem set_ctrl_bus_error_propagation_witness :
    (imx290_set_ctrl busFail1 dev37 ⟨CtrlId.gain, 100, 240⟩ true
       BusState.start).1 = busFail1 1 := by
  have hb : ∀ i, busFail1 i ≤ 0 := by
    intro i
    by_cases hi : i = 1 <;> simp [busFail1, hi]
  have hrun : imx290_set_ctrl busFail1 dev37 ⟨CtrlId.gain, 100, 240⟩ true
      BusState.start =
      (-5, dev37, ⟨[⟨0x3001, 1⟩, ⟨0x3014, 100⟩], 2⟩) := by decide
  have h := (set_ctrl_bus_error_propagation busFail1 dev37
      ⟨CtrlId.gain, 100, 240⟩ (Or.inl rfl) hb (-5) dev37
      ⟨[⟨0x3001, 1⟩, ⟨0x3014, 100⟩], 2⟩ hrun).2 1
      (by decide) (by decide) (by decide)
  rw [hrun]
  exact h

/-! ## Exposure arithmetic -/

/-- A condition mask of 0 constrains no axis, so it always matches. -/
lemma settings_match_zero (imx290 : Imx290State) :
    imx290_settings_match imx290 0 = true := rfl

/-- On the domain the driver can actually reach (no 32-bit wrap), the
raw exposure value is `vmax - 2` minus the truncated quotient
`c * (vmax - 2) / cmax` clamped up to 1, and that clamped quotient (the
exposure delta) never exceeds `vmax - 2`. -/
lemma exposureRaw_eq (vmax cmax c : Nat) (hv : 2 < vmax) (hcm : 0 < cmax)
    (hc : c ≤ cmax) (hfit : cmax * (vmax - 2) < U32) :
    exposureRaw vmax cmax c =
      (vmax - 2) - max 1 (c * (vmax - 2) / cmax) ∧
    max 1 (c * (vmax - 2) / cmax) ≤ vmax - 2 := by
  have hmlt : vmax - 2 < U32 := by
    calc vmax - 2 = 1 * (vmax - 2) := (Nat.one_mul _).symm
    _ ≤ cmax * (vmax - 2) := Nat.mul_le_mul_right _ hcm
    _ < U32 := hfit
  have hm : (vmax + U32 - 2) % U32 = vmax - 2 := by
    rw [show vmax + U32 - 2 = (vmax - 2) + U32 from by omega,
        Nat.add_mod_right, Nat.mod_eq_of_lt hmlt]
  have hv1lt : c * (vmax - 2) < U32 :=
    lt_of_le_of_lt (Nat.mul_le_mul_right _ hc) hfit
  have hv1 : c * (vmax - 2) % U32 = c * (vmax - 2) :=
    Nat.mod_eq_of_lt hv1lt
  have hv2le : c * (vmax - 2) / cmax ≤ vmax - 2 := by
    calc c * (vmax - 2) / cmax ≤ cmax * (vmax - 2) / cmax :=
          Nat.div_le_div_right (Nat.mul_le_mul_right _ hc)
    _ = vmax - 2 := Nat.mul_div_cancel_left _ hcm
  have h1le : (1 : Nat) ≤ vmax - 2 := by omega
  have hmax : max 1 (c * (vmax - 2) / cmax) ≤ vmax - 2 := max_le h1le hv2le
  have hite : (if c * (vmax - 2) / cmax = 0 then 1
      else c * (vmax - 2) / cmax) = max 1 (c * (vmax - 2) / cmax) := by
    by_cases hz : c * (vmax - 2) / cmax = 0
    · rw [if_pos hz, hz]
      decide
    · rw [if_neg hz, max_eq_right (Nat.one_le_iff_ne_zero.mpr hz)]
  refine ⟨?_, hmax⟩
  show ((vmax + U32 - 2) % U32 + U32 -
      (if c * ((vmax + U32 - 2) % U32) % U32 / cmax = 0 then 1
       else c * ((vmax + U32 - 2) % U32) % U32 / cmax)) % U32 = _
  rw [hm, hv1, hite]
  generalize hq : max 1 (c * (vmax - 2) / cmax) = M at hmax ⊢
  rw [show vmax - 2 + U32 - M = (vmax - 2 - M) + U32 from by omega,
      Nat.add_mod_right]
  exact Nat.mod_eq_of_lt (by omega)

/-! ## Claim C4 -/

/-- Modelled from the spec's words (claim C4): the round-to-nearest
exposure mapping `raw = vmax - 2 - round((c * (vmax - 2)) / ctrl_max)`,
with the delta clamped away from zero. -/
def specExposureRawRound (vmax cmax c : Nat) : Nat :=
  vmax - 2 - max 1 ((2 * (c * (vmax - 2)) + cmax) / (2 * cmax))

/-- Device in the established 1080p streaming state (vmax = 1125). -/
def dev1125 : Imx290State :=
  ⟨2, 10, .fps30, .inck37, 0, 1125, some ⟨1920, 1080, 0⟩,
   ⟨1920, 1080, 0x300f, 1, 8⟩, 0, 0⟩

/-- Claim C4 counterexample: at vmax = 1125, ctrl_max = 10000, c = 15
the quotient is 1.6845, so the claimed round-to-nearest mapping gives
raw = 1121 (low byte 97), but the driver's truncating division gives
raw = 1122 and writes low byte 98. -/
theorem set_exposure_floor_not_round :
    (imx290_set_exposure busOk dev1125 ⟨CtrlId.exposure, 15, 10000⟩
       BusState.start).2.log =
      [⟨0x3001, 1⟩, ⟨0x3020, 98⟩, ⟨0x3021, 4⟩, ⟨0x3022, 0⟩, ⟨0x3001, 0⟩] ∧
    specExposureRawRound 1125 10000 15 = 1121 ∧
    (1121 : Nat) % 256 = 97 := by
  refine ⟨by decide, by decide, by decide⟩

/-- Claim C4 as amended: with an established vmax (750 or 1125), a
positive control maximum, a control value within range and no 32-bit
overflow of `c * (vmax - 2)` (always true with the driver's fixed
ctrl_max = 10000), the update writes, inside a hold/release bracket, the
three bytes of `raw = vmax - 2 - max 1 (floor (c * (vmax - 2) /
ctrl_max))` — truncating division, not round-to-nearest — the computed
delta is never zero, and with vmax = 0 the update is a no-op returning
success. -/
theorem set_exposure_raw_formula (bus : Bus) (imx290 : Imx290State)
    (ctrl : Ctrl)
    (hv : imx290.vmax = 750 ∨ imx290.vmax = 1125)
    (hcm : 0 < ctrl.maximum) (hc : ctrl.val ≤ ctrl.maximum)
    (hfit : ctrl.maximum * (imx290.vmax - 2) < U32)
    (hbus : ∀ i, bus i = 0) :
    imx290_set_exposure bus imx290 ctrl BusState.start =
      (0, ⟨[⟨0x3001, 1⟩,
            ⟨0x3020, exposureRaw imx290.vmax ctrl.maximum ctrl.val % 256⟩,
            ⟨0x3021, exposureRaw imx290.vmax ctrl.maximum ctrl.val / 256 % 256⟩,
            ⟨0x3022, exposureRaw imx290.vmax ctrl.maximum ctrl.val / 65536 % 2⟩,
            ⟨0x3001, 0⟩], 5⟩) ∧
    exposureRaw imx290.vmax ctrl.maximum ctrl.val =
      (imx290.vmax - 2) -
        max 1 (ctrl.val * (imx290.vmax - 2) / ctrl.maximum) ∧
    1 ≤ (imx290.vmax - 2) - exposureRaw imx290.vmax ctrl.maximum ctrl.val ∧
    (∀ (bus2 : Bus) (dev2 : Imx290State) (ctrl2 : Ctrl) (s2 : BusState),
      dev2.vmax = 0 → imx290_set_exposure bus2 dev2 ctrl2 s2 = (0, s2)) := by
  have hv2 : 2 < imx290.vmax := by omega
  obtain ⟨he, hle⟩ := exposureRaw_eq imx290.vmax ctrl.maximum ctrl.val
    hv2 hcm hc hfit
  refine ⟨?_, he, ?_, ?_⟩
  · have hvm : ¬ imx290.vmax = 0 := by omega
    have hmw : matchedWrites imx290
        (exposureRegs (exposureRaw imx290.vmax ctrl.maximum ctrl.val)) =
        [⟨0x3001, 1⟩,
         ⟨0x3020, exposureRaw imx290.vmax ctrl.maximum ctrl.val % 256⟩,
         ⟨0x3021, exposureRaw imx290.vmax ctrl.maximum ctrl.val / 256 % 256⟩,
         ⟨0x3022, exposureRaw imx290.vmax ctrl.maximum ctrl.val / 65536 % 2⟩,
         ⟨0x3001, 0⟩] := by
      simp [matchedWrites, exposureRegs, List.filter_cons,
            settings_match_zero]
    have hok := set_register_array_ok bus imx290
      (exposureRegs (exposureRaw imx290.vmax ctrl.maximum ctrl.val))
      BusState.start (fun j _ => hbus _)
    rw [hmw] at hok
    simpa [imx290_set_exposure, hvm, BusState.start] using hok
  · rw [he, Nat.sub_sub_self hle]
    exact le_max_left _ _
  · intro bus2 dev2 ctrl2 s2 hz
    simp [imx290_set_exposure, hz]

theorem set_exposure_raw_formula_witness :
    imx290_set_exposure busOk dev1125 ⟨CtrlId.exposure, 5000, 10000⟩
      BusState.start =
      (0, ⟨[⟨0x3001, 1⟩, ⟨0x3020, 50⟩, ⟨0x3021, 2⟩, ⟨0x3022, 0⟩,
            ⟨0x3001, 0⟩], 5⟩) := by
  have h := (set_exposure_raw_formula busOk dev1125
      ⟨CtrlId.exposure, 5000, 10000⟩ (Or.inr rfl) (by decide) (by decide)
      (by decide) (fun _ => rfl)).1
  exact h.trans (by decide)

/-! ## Claim C5 -/

/-- Claim C5 counterexample: the mapping is not non-increasing for every
vmax > 2 and ctrl_max > 0 — at vmax = 2^31 + 2 (representable in the
u32 vmax field, though never established by the driver) the 32-bit
multiplication wraps and the raw value increases from c = 1 to c = 2. -/
theorem exposure_monotone_overflow_cex :
    exposureRaw 2147483650 2 1 = 1073741824 ∧
    exposureRaw 2147483650 2 2 = 2147483647 ∧
    ¬ exposureRaw 2147483650 2 2 ≤ exposureRaw 2147483650 2 1 := by
  refine ⟨by decide, by decide, by decide⟩

/-- Claim C5 as amended: on the wrap-free domain
`ctrl_max * (vmax - 2) < 2^32` (which covers everything the driver can
reach: established vmax is at most 1125 and ctrl_max is 10000), the raw
exposure value is monotonically non-increasing in the control value, the
computed delta is at least 1 — never zero — and the raw value never
exceeds vmax - 2. -/
theorem exposure_raw_antitone (vmax cmax c1 c2 : Nat) (hv : 2 < vmax)
    (hcm : 0 < cmax) (hfit : cmax * (vmax - 2) < U32)
    (h12 : c1 ≤ c2) (h2 : c2 ≤ cmax) :
    exposureRaw vmax cmax c2 ≤ exposureRaw vmax cmax c1 ∧
    1 ≤ (vmax - 2) - exposureRaw vmax cmax c2 ∧
    exposureRaw vmax cmax c2 ≤ vmax - 2 := by
  obtain ⟨e1, b1⟩ := exposureRaw_eq vmax cmax c1 hv hcm (le_trans h12 h2) hfit
  obtain ⟨e2, b2⟩ := exposureRaw_eq vmax cmax c2 hv hcm h2 hfit
  rw [e1, e2]
  have hmono : c1 * (vmax - 2) / cmax ≤ c2 * (vmax - 2) / cmax :=
    Nat.div_le_div_right (Nat.mul_le_mul_right _ h12)
  refine ⟨Nat.sub_le_sub_left (max_le_max le_rfl hmono) _, ?_, Nat.sub_le _ _⟩
  rw [Nat.sub_sub_self b2]
  exact le_max_left _ _

theorem exposure_raw_antitone_witness :
    exposureRaw 1125 10000 8000 ≤ exposureRaw 1125 10000 4000 ∧
    1 ≤ (1125 - 2) - exposureRaw 1125 10000 8000 ∧
    exposureRaw 1125 10000 8000 ≤ 1125 - 2 :=
  exposure_raw_antitone 1125 10000 4000 8000 (by decide) (by decide)
    (by decide) (by decide) (by decide)

/-! ## Link frequencies and pixel rate (imx290.c:525) -/

def FREQ_INDEX_1080P : Nat := 0
def FREQ_INDEX_720P : Nat := 1

def imx290_link_freq_2lanes_37mhz : List Nat := [445500000, 297000000]
def imx290_link_freq_4lanes_37mhz : List Nat := [222750000, 148500000]
def imx290_link_freq_2lanes_74mhz : List Nat := [891000000, 594000000]
def imx290_link_freq_4lanes_74mhz : List Nat := [445500000, 297000000]

/-- imx290_link_freqs_ptr (imx290.c:550): table selected by the 4-lane
bit and the 74 MHz bit; probe guarantees nlanes is 2 or 4. -/
def imx290_link_freqs_ptr (imx290 : Imx290State) : List Nat :=
  if imx290.nlanes = 4 then
    match imx290.inck with
    | .inck37 => imx290_link_freq_4lanes_37mhz
    | .inck74 => imx290_link_freq_4lanes_74mhz
  else
    match imx290.inck with
    | .inck37 => imx290_link_freq_2lanes_37mhz
    | .inck74 => imx290_link_freq_2lanes_74mhz

/-- imx290_get_link_freq_index (imx290.c:1127); probe establishes
current_mode before any use, so the `none` default is unreachable. -/
def imx290_get_link_freq_index (imx290 : Imx290State) : Nat :=
  match imx290.current_mode with
  | some m => m.link_freq_index
  | none => 0

/-- imx290_get_link_freq (imx290.c:1132). -/
def imx290_get_link_freq (imx290 : Imx290State) : Nat :=
  (imx290_link_freqs_ptr imx290).getD (imx290_get_link_freq_index imx290) 0

/-- imx290_calc_pixel_rate (imx290.c:1139): link_freq * 2 * nlanes /
bpp, u64 arithmetic (the products stay far below 2^64, so plain Nat is
exact). -/
def imx290_calc_pixel_rate (imx290 : Imx290State) : Nat :=
  imx290_get_link_freq imx290 * 2 * imx290.nlanes / imx290.bpp

/-! ## Claim C6 -/

/-- Claim C6: for every device state with a supported lane count and bit
depth, the pixel rate computed by imx290_calc_pixel_rate is the floor of
link_freq * 2 * lanes / bpp, i.e. it satisfies
pixel_rate * bpp <= link_freq * 2 * lanes < pixel_rate * bpp + bpp. -/
theorem calc_pixel_rate_floor_contract (imx290 : Imx290State)
    (hl : imx290.nlanes = 2 ∨ imx290.nlanes = 4)
    (hb : imx290.bpp = 10 ∨ imx290.bpp = 12) :
    imx290_calc_pixel_rate imx290 =
      imx290_get_link_freq imx290 * 2 * imx290.nlanes / imx290.bpp ∧
    imx290_calc_pixel_rate imx290 * imx290.bpp ≤
      imx290_get_link_freq imx290 * 2 * imx290.nlanes ∧
    imx290_get_link_freq imx290 * 2 * imx290.nlanes <
      imx290_calc_pixel_rate imx290 * imx290.bpp + imx290.bpp := by
  refine ⟨rfl, Nat.div_mul_le_self _ _, ?_⟩
  show imx290_get_link_freq imx290 * 2 * imx290.nlanes <
    imx290_get_link_freq imx290 * 2 * imx290.nlanes / imx290.bpp *
      imx290.bpp + imx290.bpp
  rcases hb with h | h <;> rw [h] <;>
    [have h1 := Nat.div_add_mod
        (imx290_get_link_freq imx290 * 2 * imx290.nlanes) 10;
     have h1 := Nat.div_add_mod
        (imx290_get_link_freq imx290 * 2 * imx290.nlanes) 12] <;>
    [have h2 := Nat.mod_lt
        (imx290_get_link_freq imx290 * 2 * imx290.nlanes)
        (show 0 < 10 from by omega);
     have h2 := Nat.mod_lt
        (imx290_get_link_freq imx290 * 2 * imx290.nlanes)
        (show 0 < 12 from by omega)] <;>
    omega

/-- Scenario 1 of the spec, from the theorem: 2 lanes, 37.125 MHz,
1080p, 10 bpp yields link frequency 445500000 and pixel rate
178200000. -/
theorem calc_pixel_rate_floor_contract_witness :
    imx290_calc_pixel_rate dev1125 = 178200000 ∧
    imx290_calc_pixel_rate dev1125 * dev1125.bpp ≤
      imx290_get_link_freq dev1125 * 2 * dev1125.nlanes := by
  have h := calc_pixel_rate_floor_contract dev1125 (Or.inl rfl) (Or.inl rfl)
  exact ⟨h.1.trans (by decide), h.2.1⟩

/-! ## Claim C7 -/

/-- The flip update leaves every untouched bit of the byte as it was in
the cache. -/
lemma flipNewByte_preserves (imx290 : Imx290State) (ctrl : Ctrl) (j : Nat)
    (hj : j < 8) (hne : j ≠ (if ctrl.id = CtrlId.hflip then 1 else 0)) :
    (flipNewByte imx290 ctrl).testBit j = imx290.reg_3007.testBit j := by
  unfold flipNewByte
  by_cases hid : ctrl.id = CtrlId.hflip
  · rw [if_pos hid] at hne ⊢
    by_cases hval : ctrl.val ≠ 0
    · rw [if_pos hval, Nat.testBit_lor,
          show Nat.testBit 2 j = false from by
            interval_cases j <;> first | (exact absurd rfl hne) | decide]
      exact Bool.or_false _
    · rw [if_neg hval, Nat.testBit_land,
          show Nat.testBit (255 ^^^ 2) j = true from by
            interval_cases j <;> first | (exact absurd rfl hne) | decide]
      exact Bool.and_true _
  · rw [if_neg hid] at hne ⊢
    by_cases hval : ctrl.val ≠ 0
    · rw [if_pos hval, Nat.testBit_lor,
          show Nat.testBit 1 j = false from by
            interval_cases j <;> first | (exact absurd rfl hne) | decide]
      exact Bool.or_false _
    · rw [if_neg hval, Nat.testBit_land,
          show Nat.testBit (255 ^^^ 1) j = true from by
            interval_cases j <;> first | (exact absurd rfl hne) | decide]
      exact Bool.and_true _

/-- The flip update sets the targeted bit exactly to the control
value. -/
lemma flipNewByte_target (imx290 : Imx290State) (ctrl : Ctrl) :
    ((flipNewByte imx290 ctrl).testBit
      (if ctrl.id = CtrlId.hflip then 1 else 0) = true) ↔ ctrl.val ≠ 0 := by
  unfold flipNewByte
  by_cases hid : ctrl.id = CtrlId.hflip
  · rw [if_pos hid, if_pos hid]
    by_cases hval : ctrl.val ≠ 0
    · rw [if_pos hval, Nat.testBit_lor,
          show Nat.testBit 2 1 = true from by decide]
      simpa using hval
    · rw [if_neg hval, Nat.testBit_land,
          show Nat.testBit (255 ^^^ 2) 1 = false from by decide]
      simpa using hval
  · rw [if_neg hid, if_neg hid]
    by_cases hval : ctrl.val ≠ 0
    · rw [if_pos hval, Nat.testBit_lor,
          show Nat.testBit 1 0 = true from by decide]
      simpa using hval
    · rw [if_neg hval, Nat.testBit_land,
          show Nat.testBit (255 ^^^ 1) 0 = false from by decide]
      simpa using hval

/-- Claim C7: a flip update read-modify-writes exactly one bit (bit 1
for H-flip, bit 0 for V-flip) of the cached byte, writes the new byte
inside a hold/release bracket, commits it to the cache only when the
write sequence succeeds and leaves the cache untouched when a write
fails; H-flip then V-flip from the fresh state leaves the cache at
bit 1 | bit 0 = 3 with exactly two bus writes to register 0x3007 (one
per update). -/
theorem set_flip_rmw_cache :
    (∀ (imx290 : Imx290State) (ctrl : Ctrl) (bus : Bus),
      ctrl.id = CtrlId.hflip ∨ ctrl.id = CtrlId.vflip →
      (∀ i, bus i = 0) →
      ∃ w,
        imx290_set_flip bus imx290 ctrl BusState.start =
          (0, { imx290 with reg_3007 := w },
           ⟨[⟨0x3001, 1⟩, ⟨0x3007, w⟩, ⟨0x3001, 0⟩], 3⟩) ∧
        (∀ j, j < 8 → j ≠ (if ctrl.id = CtrlId.hflip then 1 else 0) →
          w.testBit j = imx290.reg_3007.testBit j) ∧
        ((w.testBit (if ctrl.id = CtrlId.hflip then 1 else 0) = true) ↔
          ctrl.val ≠ 0)) ∧
    (∀ (imx290 : Imx290State) (ctrl : Ctrl) (bus : Bus),
      (∀ i, bus i ≤ 0) →
      ∀ ret dev' s',
        imx290_set_flip bus imx290 ctrl BusState.start = (ret, dev', s') →
        ∀ k, k < s'.log.length → bus k ≠ 0 → dev' = imx290) ∧
    ((imx290_set_flip busOk
        (imx290_set_flip busOk dev37 ⟨CtrlId.hflip, 1, 1⟩
          BusState.start).2.1
        ⟨CtrlId.vflip, 1, 1⟩
        (imx290_set_flip busOk dev37 ⟨CtrlId.hflip, 1, 1⟩
          BusState.start).2.2).2.1.reg_3007 = 3 ∧
     ((imx290_set_flip busOk
        (imx290_set_flip busOk dev37 ⟨CtrlId.hflip, 1, 1⟩
          BusState.start).2.1
        ⟨CtrlId.vflip, 1, 1⟩
        (imx290_set_flip busOk dev37 ⟨CtrlId.hflip, 1, 1⟩
          BusState.start).2.2).2.2.log.countP
        (fun x => x.addr == 0x3007)) = 2) := by
  refine ⟨?_, ?_, by decide, by decide⟩
  · intro imx290 ctrl bus _ hb
    refine ⟨flipNewByte imx290 ctrl, ?_,
      fun j hj hne => flipNewByte_preserves imx290 ctrl j hj hne,
      flipNewByte_target imx290 ctrl⟩
    have hmw : matchedWrites imx290 (flipRegs (flipNewByte imx290 ctrl)) =
        [⟨0x3001, 1⟩, ⟨0x3007, flipNewByte imx290 ctrl⟩, ⟨0x3001, 0⟩] := by
      simp [matchedWrites, flipRegs, List.filter_cons, settings_match_zero]
    have hok := set_register_array_ok bus imx290
      (flipRegs (flipNewByte imx290 ctrl)) BusState.start (fun j _ => hb _)
    rw [hmw] at hok
    simp [BusState.start] at hok
    simp [imx290_set_flip, BusState.start, hok]
  · intro imx290 ctrl bus hbus ret dev' s' h k hk hkf
    rcases hrun : imx290_set_register_array bus imx290
        (flipRegs (flipNewByte imx290 ctrl)) BusState.start with ⟨qret, qs⟩
    obtain ⟨i1, _, i3, i4, _⟩ := set_register_array_inv bus imx290 hbus
      (flipRegs (flipNewByte imx290 ctrl)) BusState.start rfl qret qs hrun
    by_cases hneg : qret < 0
    · simp [imx290_set_flip, hrun, hneg] at h
      exact h.2.1.symm
    · have hz : qret = 0 := by omega
      simp [imx290_set_flip, hrun, hneg] at h
      obtain ⟨_, _, rfl⟩ := h
      exfalso
      have := i4 hz k (Nat.zero_le k) (by omega)
      exact hkf this

theorem set_flip_rmw_cache_witness :
    (imx290_set_flip busOk dev37 ⟨CtrlId.hflip, 1, 1⟩ BusState.start).1 = 0 := by
  obtain ⟨w, h1, _, _⟩ := set_flip_rmw_cache.1 dev37 ⟨CtrlId.hflip, 1, 1⟩
    busOk (Or.inl rfl) (fun _ => rfl)
  rw [h1]

/-! ## Frame intervals (imx290.c:999) -/

/-- imx290_intervals: (numerator, denominator) of the interval of each
frame-rate class, ordered by ascending rate (the C comment demands the
ordering). -/
def imx290_intervals : List (Nat × Nat) :=
  [(1, 25), (1, 30), (1, 50), (1, 60)]

/-- Interpret the loop index stored into `imx290->fps` as the enum; the
list has four entries, so only indices 0..3 occur and the wildcard is
its last member. -/
def fpsOfIdx : Nat → Fps
  | 0 => .fps25
  | 1 => .fps30
  | 2 => .fps50
  | _ => .fps60

/-- The selection loop of mipi_csis_s_frame_interval: `match = i;
if (a * denominator >= b * numerator) break;` — the index the loop ends
at. -/
def intervalMatch (a b : Nat) : List (Nat × Nat) → Nat → Nat → Nat
  | [], _, m => m
  | (num, den) :: rest, i, _ =>
      if b * num ≤ a * den then i
      else intervalMatch a b rest (i + 1) i

/-- mipi_csis_s_frame_interval (imx290.c:1045): select a class by the
loop above, store it into the device and report its interval.  The
requested interval is a/b seconds (u32 numerator a, u32
denominator b). -/
def mipi_csis_s_frame_interval (imx290 : Imx290State) (a b : Nat) :
    Imx290State × (Nat × Nat) :=
  let m := intervalMatch a b imx290_intervals 0 0
  ({ imx290 with fps := fpsOfIdx m }, imx290_intervals.getD m (0, 0))

/-! ## Claim C8 -/

/-- Claim C8 counterexample: for a requested interval of 1/100 s (rate
100 fps) no class has rate >= requested, so the claimed selection rule
picks nothing; the code stores the largest class, 60 fps, whose rate is
below the request. -/
theorem s_frame_interval_over60_cex :
    (mipi_csis_s_frame_interval dev37 1 100).1.fps = Fps.fps60 ∧
    ¬ (100 * 1 ≤ 1 * 60) := by
  exact ⟨rfl, by decide⟩

/-- Claim C8 as amended: the operation stores the smallest of the four
classes whose rate is at least the requested rate (b/a fps, compared by
cross-multiplication) and returns that class's interval; when no class
qualifies (requested rate above 60 fps) it stores and returns the
largest class, index 3 (60 fps). -/
theorem s_frame_interval_selects_class (imx290 : Imx290State) (a b : Nat)
    (ha : a < U32) (hb : b < U32) :
    ∀ st iv, mipi_csis_s_frame_interval imx290 a b = (st, iv) →
      ∃ m, m < 4 ∧
        st = { imx290 with fps := fpsOfIdx m } ∧
        iv = imx290_intervals.getD m (0, 0) ∧
        (∀ i, i < m →
          ¬ (b * (imx290_intervals.getD i (0, 0)).1 ≤
             a * (imx290_intervals.getD i (0, 0)).2)) ∧
        (b * (imx290_intervals.getD m (0, 0)).1 ≤
           a * (imx290_intervals.getD m (0, 0)).2 ∨ m = 3) := by
  intro st iv h
  by_cases c0 : b ≤ a * 25
  · have hm : intervalMatch a b imx290_intervals 0 0 = 0 := by
      simp [intervalMatch, imx290_intervals, c0]
    simp [mipi_csis_s_frame_interval, hm] at h
    obtain ⟨rfl, rfl⟩ := h
    refine ⟨0, by omega, rfl, rfl, ?_,
      Or.inl (by simpa [imx290_intervals] using c0)⟩
    intro i hi; omega
  · by_cases c1 : b ≤ a * 30
    · have hm : intervalMatch a b imx290_intervals 0 0 = 1 := by
        simp [intervalMatch, imx290_intervals, c0, c1]
      simp [mipi_csis_s_frame_interval, hm] at h
      obtain ⟨rfl, rfl⟩ := h
      refine ⟨1, by omega, rfl, rfl, ?_,
        Or.inl (by simpa [imx290_intervals] using c1)⟩
      intro i hi
      interval_cases i
      simpa [imx290_intervals] using c0
    · by_cases c2 : b ≤ a * 50
      · have hm : intervalMatch a b imx290_intervals 0 0 = 2 := by
          simp [intervalMatch, imx290_intervals, c0, c1, c2]
        simp [mipi_csis_s_frame_interval, hm] at h
        obtain ⟨rfl, rfl⟩ := h
        refine ⟨2, by omega, rfl, rfl, ?_,
          Or.inl (by simpa [imx290_intervals] using c2)⟩
        intro i hi
        interval_cases i
        · simpa [imx290_intervals] using c0
        · simpa [imx290_intervals] using c1
      · by_cases c3 : b ≤ a * 60
        · have hm : intervalMatch a b imx290_intervals 0 0 = 3 := by
            simp [intervalMatch, imx290_intervals, c0, c1, c2, c3]
          simp [mipi_csis_s_frame_interval, hm] at h
          obtain ⟨rfl, rfl⟩ := h
          refine ⟨3, by omega, rfl, rfl, ?_,
            Or.inl (by simpa [imx290_intervals] using c3)⟩
          intro i hi
          interval_cases i
          · simpa [imx290_intervals] using c0
          · simpa [imx290_intervals] using c1
          · simpa [imx290_intervals] using c2
        · have hm : intervalMatch a b imx290_intervals 0 0 = 3 := by
            simp [intervalMatch, imx290_intervals, c0, c1, c2, c3]
          simp [mipi_csis_s_frame_interval, hm] at h
          obtain ⟨rfl, rfl⟩ := h
          refine ⟨3, by omega, rfl, rfl, ?_, Or.inr rfl⟩
          intro i hi
          interval_cases i
          · simpa [imx290_intervals] using c0
          · simpa [imx290_intervals] using c1
          · simpa [imx290_intervals] using c2

theorem s_frame_interval_selects_class_witness :
    (mipi_csis_s_frame_interval dev37 1 30).1.fps = Fps.fps30 := by
  obtain ⟨m, hm4, hst, hiv, hmin, hsel⟩ :=
    s_frame_interval_selects_class dev37 1 30 (by decide) (by decide)
      (mipi_csis_s_frame_interval dev37 1 30).1
      (mipi_csis_s_frame_interval dev37 1 30).2 rfl
  rw [hst]
  show fpsOfIdx m = Fps.fps30
  interval_cases m
  · rcases hsel with hq | hq
    · exact absurd hq (by decide)
    · exact absurd hq (by decide)
  · rfl
  · exact absurd (by decide) (hmin 1 (by omega))
  · exact absurd (by decide) (hmin 1 (by omega))

/-! ## Modes and formats (imx290.c:136, 576) -/

def MEDIA_BUS_FMT_SRGGB10_1X10 : Nat := 0x300f
def MEDIA_BUS_FMT_SRGGB12_1X12 : Nat := 0x3013

/-- imx290_formats: (media bus code, bits per pixel). -/
def imx290_formats : List (Nat × Nat) :=
  [(MEDIA_BUS_FMT_SRGGB10_1X10, 10), (MEDIA_BUS_FMT_SRGGB12_1X12, 12)]

def imx290_modes_2lanes : List Mode :=
  [⟨1920, 1080, FREQ_INDEX_1080P⟩, ⟨1280, 720, FREQ_INDEX_720P⟩]

def imx290_modes_4lanes : List Mode :=
  [⟨1920, 1080, FREQ_INDEX_1080P⟩, ⟨1280, 720, FREQ_INDEX_720P⟩]

def imx290_modes_ptr (imx290 : Imx290State) : List Mode :=
  if imx290.nlanes = 2 then imx290_modes_2lanes else imx290_modes_4lanes

/-- Absolute difference on u32 sizes. -/
def sizeDist (x y : Nat) : Nat := max x y - min x y

/-- __v4l2_find_nearest_size (v4l2-common.c): keep the entry with the
smallest width+height error (later entries win ties), stopping early on
an exact match. -/
def findNearestAux (w h : Nat) :
    List Mode → Nat → Option Mode → Option Mode
  | [], _, best => best
  | m :: rest, minErr, best =>
      let err := sizeDist m.width w + sizeDist m.height h
      if minErr < err then findNearestAux w h rest minErr best
      else if err = 0 then some m
      else findNearestAux w h rest err (some m)

/-- v4l2_find_nearest_size with min_error starting at U32_MAX. -/
def v4l2_find_nearest_size (modes : List Mode) (w h : Nat) : Option Mode :=
  findNearestAux w h modes 4294967295 none

/-- imx290_set_fmt (imx290.c:1151).  `whichTry` models fmt->which ==
V4L2_SUBDEV_FORMAT_TRY; the TRY path stores into the pad config (not
modelled) instead of the device, the ACTIVE path also pushes the new
link-frequency index and pixel rate into the two read-only controls.
The mode list is never empty, so the `getD` default mode is
unreachable. -/
def imx290_set_fmt (imx290 : Imx290State) (fmt : Fmt) (whichTry : Bool) :
    Int × Imx290State × Fmt :=
  let mode := (v4l2_find_nearest_size (imx290_modes_ptr imx290)
    fmt.width fmt.height).getD ⟨0, 0, 0⟩
  let i0 := imx290_formats.findIdx (fun p => p.1 == fmt.code)
  let i := if imx290_formats.length ≤ i0 then 0 else i0
  let fmt' : Fmt := ⟨mode.width, mode.height,
    (imx290_formats.getD i (0, 0)).1, 1, 8⟩
  if whichTry then (0, imx290, fmt')
  else
    let dev' := { imx290 with
      current_mode := some mode,
      bpp := (imx290_formats.getD i (0, 0)).2,
      current_format := fmt' }
    let dev'' := { dev' with
      link_freq_ctrl := imx290_get_link_freq_index dev',
      pixel_rate_ctrl := imx290_calc_pixel_rate dev' }
    (0, dev'', fmt')

/-! ## Claim C10 -/

/-- Claim C10: imx290_set_fmt always returns 0 — it has no failure
path — and when the requested pixel code is neither supported Bayer
code, it silently substitutes the first catalog format (10-bit SRGGB10)
instead of rejecting the request. -/
theorem set_fmt_substitutes_default_code (imx290 : Imx290State) (fmt : Fmt)
    (whichTry : Bool) :
    (imx290_set_fmt imx290 fmt whichTry).1 = 0 ∧
    (fmt.code ≠ MEDIA_BUS_FMT_SRGGB10_1X10 →
     fmt.code ≠ MEDIA_BUS_FMT_SRGGB12_1X12 →
     (imx290_set_fmt imx290 fmt whichTry).2.2.code =
       MEDIA_BUS_FMT_SRGGB10_1X10) := by
  constructor
  · cases whichTry <;> rfl
  · intro h10 h12
    have e10 : (MEDIA_BUS_FMT_SRGGB10_1X10 == fmt.code) = false :=
      beq_eq_false_iff_ne.mpr (Ne.symm h10)
    have e12 : (MEDIA_BUS_FMT_SRGGB12_1X12 == fmt.code) = false :=
      beq_eq_false_iff_ne.mpr (Ne.symm h12)
    have hidx : List.findIdx (fun p : Nat × Nat => p.1 == fmt.code)
        [(MEDIA_BUS_FMT_SRGGB10_1X10, 10),
         (MEDIA_BUS_FMT_SRGGB12_1X12, 12)] = 2 := by
      simp [List.findIdx_cons, e10, e12]
    cases whichTry <;>
      simp [imx290_set_fmt, imx290_formats, hidx]

theorem set_fmt_substitutes_default_code_witness :
    (imx290_set_fmt dev37 ⟨640, 480, 9999, 0, 0⟩ false).2.2.code =
      MEDIA_BUS_FMT_SRGGB10_1X10 :=
  (set_fmt_substitutes_default_code dev37 ⟨640, 480, 9999, 0, 0⟩ false).2
    (by decide) (by decide)

end Imx290
